import Mathlib

/-!
Verification of the external-process filter core of `git2-process-filter`
(`src/lib.rs`): the command tokenizer `parse_command` and the process
executor `run_command` with its two strategies `run_buffered` and
`run_streaming`.

The tokenizer is pure and embedded directly.  The executor performs real
process I/O; it is embedded as a function of an explicit *environment
behavior* record describing what the operating system and the child
process do (pipe availability, write/read outcomes, the sequence of
`try_wait` poll results together with the elapsed-time readings, the
final exit status).  Each execution-strategy function returns, besides
the `Result` value of the source function, ghost observables used by the
specification claims: whether the call returned only after the child had
exited or been killed (`settled`), whether `kill` was issued (`killed`),
and for the streaming strategy the ordered list of lifecycle events.
-/

/-- Space character, written via its code point to keep literals uniform. -/
def spaceChar : Char := Char.ofNat 32

/-- Tab character. -/
def tabChar : Char := Char.ofNat 9

/-- Double-quote character. -/
def dquoteChar : Char := Char.ofNat 34

/-- Single-quote character. -/
def squoteChar : Char := Char.ofNat 39

/-- Single-quote as a one-character string, used by the error-message formats. -/
def sqStr : String := String.mk [squoteChar]

/-- Rust `str::replace(cmd, "%f", path)` specialised to the two-character
pattern `%f`: left-to-right, non-overlapping replacement of every literal
occurrence of `%f` by `path` (lib.rs line 53). -/
def replaceF (path : List Char) : List Char → List Char
  | [] => []
  | [c] => [c]
  | c :: d :: rest =>
    if c = '%' ∧ d = 'f' then path ++ replaceF path rest
    else c :: replaceF path (d :: rest)

/-- Tokenizer state of `parse_command`'s character loop (lib.rs lines 54-57):
the completed tokens, the token being accumulated, and the two quote flags. -/
structure TokState where
  args : List (List Char)
  current : List Char
  in_double_quote : Bool
  in_single_quote : Bool
deriving DecidableEq, Repr

/-- Initial tokenizer state. -/
def initTokState : TokState := ⟨[], [], false, false⟩

/-- One step of the tokenizer loop: the `match c` of lib.rs lines 60-75,
with the arms in source order. -/
def tokStep (s : TokState) (c : Char) : TokState :=
  if c = dquoteChar ∧ s.in_single_quote = false then
    { s with in_double_quote := ! s.in_double_quote }
  else if c = squoteChar ∧ s.in_double_quote = false then
    { s with in_single_quote := ! s.in_single_quote }
  else if (c = spaceChar ∨ c = tabChar) ∧ s.in_double_quote = false ∧
      s.in_single_quote = false then
    if s.current ≠ [] then { s with args := s.args ++ [s.current], current := [] }
    else s
  else
    { s with current := s.current ++ [c] }

/-- The token list produced by running the loop over the whole string and
flushing a non-empty final token (lib.rs lines 59-79). -/
def tokensOf (cs : List Char) : List (List Char) :=
  let fin := cs.foldl tokStep initTokState
  fin.args ++ (if fin.current ≠ [] then [fin.current] else [])

/-- `ProcessFilter::parse_command` (lib.rs lines 52-86): substitute the
placeholder, tokenize, then split off the program name. -/
def parse_command (cmd path : String) : String × List String :=
  match tokensOf (replaceF path.data cmd.data) with
  | [] => ("", [])
  | p :: rest => (String.mk p, rest.map String.mk)

example : parse_command "git-lfs clean -- %f" "test.bin" =
    ("git-lfs", ["clean", "--", "test.bin"]) := by decide

example : parse_command "cat" "test.bin" = ("cat", []) := by decide

example : parse_command "echo \"hello world\" foo" "" =
    ("echo", ["hello world", "foo"]) := by decide

example : parse_command "" "x" = ("", []) := by decide

example : parse_command "   " "x" = ("", []) := by decide

/-- Default timeout for filter commands, in milliseconds
(lib.rs line 33: `Duration::from_secs(300)`). -/
def DEFAULT_TIMEOUT : Nat := 300 * 1000

/-- Maximum buffer size before switching to streaming
(lib.rs line 36: `64 * 1024`). -/
def STREAM_THRESHOLD : Nat := 64 * 1024

/-- Whitespace predicate of Rust `str::trim` restricted to the ASCII
whitespace characters (space, tab, line feed, vertical tab, form feed,
carriage return); the modelled diagnostic strings are ASCII. -/
def isRustWs (c : Char) : Bool :=
  c = spaceChar || c = tabChar || c = Char.ofNat 10 || c = Char.ofNat 11 ||
    c = Char.ofNat 12 || c = Char.ofNat 13

/-- Rust `str::trim`: drop leading and trailing whitespace. -/
def rustTrim (s : String) : String :=
  String.mk (((s.data.dropWhile isRustWs).reverse.dropWhile isRustWs).reverse)

/-- Message of the fatal error returned on a non-zero exit status:
`format!("'{}' failed: {}", program, stderr_str.trim())`
(lib.rs lines 176-180 and 265-269). -/
def failMsg (program stderrStr : String) : String :=
  sqStr ++ program ++ sqStr ++ " failed: " ++ rustTrim stderrStr

/-- Message of the timeout error:
`format!("'{}' timed out after {:?}", program, DEFAULT_TIMEOUT)`; the
`Duration` debug form of 300 seconds is `300s` (lib.rs lines 186-189). -/
def timeoutMsg (program : String) : String :=
  sqStr ++ program ++ sqStr ++ " timed out after 300s"

/-- Message of the wait error:
`format!("failed to wait for '{}': {}", program, e)`
(lib.rs lines 194-197 and 250). -/
def waitFailMsg (program e : String) : String :=
  "failed to wait for " ++ sqStr ++ program ++ sqStr ++ ": " ++ e

/-- Message of the spawn error:
`format!("failed to spawn '{}': {}", program, e)` (lib.rs line 117). -/
def spawnFailMsg (program e : String) : String :=
  "failed to spawn " ++ sqStr ++ program ++ sqStr ++ ": " ++ e

/-- Outcome of one `child.try_wait()` call inside the buffered wait loop
(lib.rs line 158): the child has exited with a success flag, is still
running, or the call itself failed. -/
inductive TryWaitRes where
  | exited (success : Bool)
  | notYet
  | err (msg : String)
deriving DecidableEq, Repr

/-- Environment behavior of one buffered execution (`run_buffered`).
`stdinPipe` / `stdoutPipe` say whether `child.stdin.take()` /
`child.stdout.take()` yield a handle; `writeErr` is the error of
`write_all` if it fails; `readStdout` is the outcome of
`read_to_end` on stdout; `stderrData` is the buffer contents after the
best-effort stderr drain (lib.rs lines 151-153, errors ignored);
`preLoopMs` is a ghost clock: the wall-clock milliseconds elapsed between
`spawn` and the `Instant::now()` taken at lib.rs line 156 (the time spent
writing stdin and reading stdout/stderr) — the source never reads it;
`poll` lists, for each iteration of the wait loop, the `try_wait` outcome
and the `start.elapsed()` reading in milliseconds. -/
structure BufferedBehavior where
  stdinPipe : Bool
  writeErr : Option String
  stdoutPipe : Bool
  readStdout : Except String (List Nat)
  stderrData : String
  preLoopMs : Nat
  poll : List (TryWaitRes × Nat)
deriving Repr

/-- Result of a buffered execution together with its ghost observables:
`outcome` is the returned `Result`; `killed` is true iff `child.kill()`
was issued; `settled` is true iff the function returned only after the
child had exited (a `try_wait` returned a status) or had been killed. -/
structure BufResult where
  outcome : Except String (List Nat)
  killed : Bool
  settled : Bool
deriving Repr

/-- The wait loop of `run_buffered` (lib.rs lines 156-200), recursing over
the finite poll trace supplied by the environment.  An exhausted trace
(impossible for the real unbounded loop) is reported as an unsettled
error. -/
def bufferedLoop (program : String) (stdout_data : List Nat)
    (stderrStr : String) : List (TryWaitRes × Nat) → BufResult
  | [] => ⟨Except.error "poll trace exhausted", false, false⟩
  | (r, elapsed) :: rest =>
    match r with
    | TryWaitRes.exited true => ⟨Except.ok stdout_data, false, true⟩
    | TryWaitRes.exited false =>
        ⟨Except.error (failMsg program stderrStr), false, true⟩
    | TryWaitRes.err e => ⟨Except.error (waitFailMsg program e), false, false⟩
    | TryWaitRes.notYet =>
        if elapsed > DEFAULT_TIMEOUT then
          ⟨Except.error (timeoutMsg program), true, true⟩
        else bufferedLoop program stdout_data stderrStr rest

/-- `ProcessFilter::run_buffered` (lib.rs lines 130-201): write the input
to stdin (a failure returns at once), read stdout to completion (a
failure returns at once), drain stderr best-effort, then poll for exit
with the timeout. -/
def run_buffered (program : String) (input : List Nat)
    (b : BufferedBehavior) : BufResult :=
  match (if b.stdinPipe then b.writeErr else none) with
  | some e => ⟨Except.error ("failed to write to stdin: " ++ e), false, false⟩
  | none =>
    match (if b.stdoutPipe then b.readStdout else Except.ok []) with
    | Except.error e =>
        ⟨Except.error ("failed to read stdout: " ++ e), false, false⟩
    | Except.ok stdout_data =>
        bufferedLoop program stdout_data b.stderrData b.poll

/-- Lifecycle events of a streaming execution, in the order the source
performs them: reading stdout to completion, joining the writer thread,
draining stderr, waiting for the process. -/
inductive SEvent where
  | readStdout
  | joinWriter
  | readStderr
  | waitChild
deriving DecidableEq, Repr

/-- Environment behavior of one streaming execution (`run_streaming`).
`writerPanic` means the writer thread panicked (its join fails);
`writeErr` the error `write_all` returned inside the writer thread;
`stderrData` the buffer after the best-effort stderr drain; `waitResult`
the outcome of `child.wait()` — an error, or the success flag of the
exit status. -/
structure StreamingBehavior where
  stdinPipe : Bool
  stdoutPipe : Bool
  readStdout : Except String (List Nat)
  writerPanic : Bool
  writeErr : Option String
  stderrData : String
  waitResult : Except String Bool
deriving Repr

/-- Result of a streaming execution with ghost observables: the returned
`Result`, the ordered list of lifecycle events performed before
returning, and whether the child had exited before the return
(`settled`). -/
structure StreamResult where
  outcome : Except String (List Nat)
  events : List SEvent
  settled : Bool
deriving Repr

/-- `ProcessFilter::run_streaming` (lib.rs lines 204-271): take the pipe
handles, spawn the writer thread, read stdout to completion, join and
check the writer, drain stderr, wait for the process, then map the exit
status. -/
def run_streaming (program : String) (input : List Nat)
    (s : StreamingBehavior) : StreamResult :=
  if s.stdinPipe = false then
    ⟨Except.error "failed to open stdin", [], false⟩
  else if s.stdoutPipe = false then
    ⟨Except.error "failed to open stdout", [], false⟩
  else
    match s.readStdout with
    | Except.error e =>
        ⟨Except.error ("failed to read stdout: " ++ e), [SEvent.readStdout], false⟩
    | Except.ok output =>
      if s.writerPanic then
        ⟨Except.error "write thread panicked",
          [SEvent.readStdout, SEvent.joinWriter], false⟩
      else
        match s.writeErr with
        | some e =>
            ⟨Except.error ("failed to write to stdin: " ++ e),
              [SEvent.readStdout, SEvent.joinWriter], false⟩
        | none =>
          match s.waitResult with
          | Except.error e =>
              ⟨Except.error (waitFailMsg program e),
                [SEvent.readStdout, SEvent.joinWriter, SEvent.readStderr,
                  SEvent.waitChild], false⟩
          | Except.ok true =>
              ⟨Except.ok output,
                [SEvent.readStdout, SEvent.joinWriter, SEvent.readStderr,
                  SEvent.waitChild], true⟩
          | Except.ok false =>
              ⟨Except.error (failMsg program s.stderrData),
                [SEvent.readStdout, SEvent.joinWriter, SEvent.readStderr,
                  SEvent.waitChild], true⟩

/-- The execution strategy `run_command` selects. -/
inductive Strategy where
  | buffered
  | streaming
deriving DecidableEq, Repr

/-- Environment behavior of one full `run_command` call: the spawn
outcome and the behavior of whichever strategy runs. -/
structure RunBehavior where
  spawnErr : Option String
  buffered : BufferedBehavior
  streaming : StreamingBehavior
deriving Repr

/-- Result of `run_command` with ghost observables: the returned
`Result`, whether `Command::spawn` was attempted, and which strategy ran
(if any). -/
structure RunResult where
  outcome : Except String (List Nat)
  spawnAttempted : Bool
  strategy : Option Strategy
deriving Repr

/-- `ProcessFilter::run_command` (lib.rs lines 88-127): pass the input
through unchanged when the template is empty or parses to an empty
program; otherwise spawn and dispatch on the payload size against
`STREAM_THRESHOLD`. -/
def run_command (cmd path : String) (workdir : Option String)
    (input : List Nat) (beh : RunBehavior) : RunResult :=
  if cmd = "" then ⟨Except.ok input, false, none⟩
  else
    let pa := parse_command cmd path
    if pa.1 = "" then ⟨Except.ok input, false, none⟩
    else
      match beh.spawnErr with
      | some e => ⟨Except.error (spawnFailMsg pa.1 e), true, none⟩
      | none =>
        if input.length > STREAM_THRESHOLD then
          ⟨(run_streaming pa.1 input beh.streaming).outcome, true,
            some Strategy.streaming⟩
        else
          ⟨(run_buffered pa.1 input beh.buffered).outcome, true,
            some Strategy.buffered⟩

/-! Helper lemmas about the tokenizer. -/

/-- A template without a percent sign is unchanged by placeholder
substitution. -/
theorem replaceF_no_percent (p : List Char) :
    ∀ cs : List Char, '%' ∉ cs → replaceF p cs = cs := by
  intro cs
  induction cs with
  | nil => intro _; rfl
  | cons c rest ih =>
    intro h
    have hc : ¬ (c = '%') := fun e => h (by simp [e])
    cases rest with
    | nil => simp [replaceF]
    | cons d rest2 =>
      have h2 : '%' ∉ d :: rest2 := fun m => h (List.mem_cons_of_mem c m)
      simp only [replaceF, hc, false_and, if_false]
      rw [ih h2]

/-- A whitespace character leaves the initial tokenizer state unchanged. -/
theorem tokStep_init_ws (c : Char) (h : c = spaceChar ∨ c = tabChar) :
    tokStep initTokState c = initTokState := by
  rcases h with h | h <;> subst h <;> decide

/-- Folding the tokenizer over pure whitespace stays in the initial
state. -/
theorem foldl_tokStep_ws :
    ∀ cs : List Char, (∀ c ∈ cs, c = spaceChar ∨ c = tabChar) →
      List.foldl tokStep initTokState cs = initTokState := by
  intro cs
  induction cs with
  | nil => intro _; rfl
  | cons c rest ih =>
    intro h
    rw [List.foldl_cons, tokStep_init_ws c (h c (List.mem_cons_self c rest))]
    exact ih (fun d hd => h d (List.mem_cons_of_mem c hd))

/-- A purely-whitespace character list yields no tokens. -/
theorem tokensOf_ws (cs : List Char)
    (h : ∀ c ∈ cs, c = spaceChar ∨ c = tabChar) : tokensOf cs = [] := by
  unfold tokensOf
  rw [foldl_tokStep_ws cs h]
  rfl

/-- One tokenizer step falls through to the push arm when none of the
three guarded arms applies. -/
theorem tokStep_push (s : TokState) (c : Char)
    (h1 : ¬ (c = dquoteChar ∧ s.in_single_quote = false))
    (h2 : ¬ (c = squoteChar ∧ s.in_double_quote = false))
    (h3 : ¬ ((c = spaceChar ∨ c = tabChar) ∧ s.in_double_quote = false ∧
      s.in_single_quote = false)) :
    tokStep s c = { s with current := s.current ++ [c] } := by
  unfold tokStep
  rw [if_neg h1, if_neg h2, if_neg h3]

/-! Claim theorems about the tokenizer. -/

/-- C5: placeholder substitution happens before quote-aware tokenizing —
a template with no percent sign parses independently of the substitution
path, a `%f` inside double quotes together with a path containing a space
yields one single argument, and a bare `%f` template is tokenized after
the literal textual substitution (so an unquoted path with a space splits
into two tokens). -/
theorem C5_substitution_before_tokenizing :
    (∀ (t p : String), '%' ∉ t.data → parse_command t p = parse_command t "") ∧
    parse_command "echo \"%f\"" "my file.bin" = ("echo", ["my file.bin"]) ∧
    parse_command "%f" "a b" = ("a", ["b"]) := by
  refine ⟨?_, by decide, by decide⟩
  intro t p h
  unfold parse_command
  rw [replaceF_no_percent p.data t.data h, replaceF_no_percent [] t.data h]

/-- Witness for C5 at the template `cat` and the path `x.bin`. -/
theorem C5_substitution_before_tokenizing_witness :
    parse_command "cat" "x.bin" = parse_command "cat" "" :=
  C5_substitution_before_tokenizing.1 "cat" "x.bin" (by decide)

/-- C6: the quoting rules of the tokenizer — inside a double-quoted
region whitespace and single quotes are pushed literally; inside a
single-quoted region whitespace and double quotes are pushed literally;
whitespace outside quotes flushes the current token exactly when it is
non-empty (so a run of whitespace yields a single separation); an
unterminated quote consumes to end of string; quote characters are
stripped from the emitted tokens, as on the mixed-quote example of the
claim. -/
theorem C6_quoting_rules :
    (∀ (s : TokState) (c : Char), s.in_double_quote = true →
      (c = spaceChar ∨ c = tabChar ∨ c = squoteChar) →
      tokStep s c = { s with current := s.current ++ [c] }) ∧
    (∀ (s : TokState) (c : Char), s.in_single_quote = true →
      (c = spaceChar ∨ c = tabChar ∨ c = dquoteChar) →
      tokStep s c = { s with current := s.current ++ [c] }) ∧
    (∀ (s : TokState) (c : Char), (c = spaceChar ∨ c = tabChar) →
      s.in_double_quote = false → s.in_single_quote = false →
      tokStep s c = (if s.current ≠ [] then
        { s with args := s.args ++ [s.current], current := [] } else s)) ∧
    parse_command ("cmd \"arg 1\" " ++ sqStr ++ "arg 2" ++ sqStr ++ " arg3") "" =
      ("cmd", ["arg 1", "arg 2", "arg3"]) ∧
    parse_command "a \"b c" "" = ("a", ["b c"]) := by
  refine ⟨?_, ?_, ?_, by decide, by decide⟩
  · intro s c hd hc
    apply tokStep_push
    · rcases hc with h | h | h <;> subst h <;> exact fun hx => absurd hx.1 (by decide)
    · rcases hc with h | h | h <;> subst h
      · exact fun hx => absurd hx.1 (by decide)
      · exact fun hx => absurd hx.1 (by decide)
      · exact fun hx => by rw [hd] at hx; exact absurd hx.2 (by decide)
    · exact fun hx => by rw [hd] at hx; exact absurd hx.2.1 (by decide)
  · intro s c hs hc
    apply tokStep_push
    · exact fun hx => by rw [hs] at hx; exact absurd hx.2 (by decide)
    · rcases hc with h | h | h <;> subst h <;> exact fun hx => absurd hx.1 (by decide)
    · exact fun hx => by rw [hs] at hx; exact absurd hx.2.2 (by decide)
  · intro s c hc hd hs
    unfold tokStep
    rw [if_neg, if_neg, if_pos]
    · exact ⟨hc, hd, hs⟩
    · rcases hc with h | h <;> subst h <;> exact fun hx => absurd hx.1 (by decide)
    · rcases hc with h | h <;> subst h <;> exact fun hx => absurd hx.1 (by decide)

/-- Witness for C6: literal whitespace inside double quotes, literal
double quote inside single quotes, and the flush on whitespace outside
quotes, each at a concrete state. -/
theorem C6_quoting_rules_witness :
    tokStep ⟨[], ['x'], true, false⟩ spaceChar = ⟨[], ['x', spaceChar], true, false⟩ ∧
    tokStep ⟨[], ['x'], false, true⟩ dquoteChar = ⟨[], ['x', dquoteChar], false, true⟩ ∧
    tokStep ⟨[], ['x'], false, false⟩ spaceChar = ⟨[['x']], [], false, false⟩ ∧
    tokStep ⟨[['x']], [], false, false⟩ spaceChar = ⟨[['x']], [], false, false⟩ :=
  ⟨C6_quoting_rules.1 ⟨[], ['x'], true, false⟩ spaceChar rfl (Or.inl rfl),
    C6_quoting_rules.2.1 ⟨[], ['x'], false, true⟩ dquoteChar rfl
      (Or.inr (Or.inr rfl)),
    C6_quoting_rules.2.2.1 ⟨[], ['x'], false, false⟩ spaceChar (Or.inl rfl) rfl rfl,
    C6_quoting_rules.2.2.1 ⟨[['x']], [], false, false⟩ spaceChar (Or.inl rfl) rfl rfl⟩

/-- C7: a template that is empty or purely whitespace after substitution
parses to an empty program name and an empty argument list; otherwise the
first emitted token is the program name and the remaining tokens are the
arguments in their original order. -/
theorem C7_program_and_args (t p : String) :
    ((∀ c ∈ replaceF p.data t.data, c = spaceChar ∨ c = tabChar) →
      parse_command t p = ("", [])) ∧
    (∀ tok rest, tokensOf (replaceF p.data t.data) = tok :: rest →
      parse_command t p = (String.mk tok, rest.map String.mk)) := by
  constructor
  · intro h
    unfold parse_command
    rw [tokensOf_ws _ h]
  · intro tok rest h
    unfold parse_command
    rw [h]

/-- Witness for C7: a whitespace template parses to the pass-through
signal, and a two-word template parses to program plus argument. -/
theorem C7_program_and_args_witness :
    parse_command " \t " "x" = ("", []) ∧
    parse_command "cp %f" "a" = ("cp", ["a"]) :=
  ⟨(C7_program_and_args " \t " "x").1 (by decide),
    (C7_program_and_args "cp %f" "a").2 ['c', 'p'] [['a']] (by decide)⟩

/-- C10: an explicitly quoted empty string in the template emits no token
at all, because a token is only flushed when its accumulated content is
non-empty — for every substitution path the template `cmd "" x` parses to
program `cmd` with the single argument `x`. -/
theorem C10_quoted_empty_token (p : String) :
    parse_command "cmd \"\" x" p = ("cmd", ["x"]) := by
  unfold parse_command
  rw [replaceF_no_percent p.data ("cmd \"\" x").data (by decide)]
  decide

/-- Witness for C10 at a concrete path. -/
theorem C10_quoted_empty_token_witness :
    parse_command "cmd \"\" x" "q.bin" = ("cmd", ["x"]) :=
  C10_quoted_empty_token "q.bin"

/-! Claim theorems about pass-through and strategy selection. -/

/-- C2: when the command template is empty, or tokenizing yields an empty
program name, execution returns the payload byte-for-byte unchanged, no
spawn is attempted and no strategy runs, for every path, working
directory, payload and environment behavior. -/
theorem C2_passthrough (cmd path : String) (workdir : Option String)
    (input : List Nat) (beh : RunBehavior)
    (h : cmd = "" ∨ (parse_command cmd path).1 = "") :
    run_command cmd path workdir input beh =
      ⟨Except.ok input, false, none⟩ := by
  by_cases hc : cmd = ""
  · simp [run_command, hc]
  · rcases h with h | h
    · exact absurd h hc
    · simp [run_command, hc, h]

/-- Witness for C2: the empty template and a purely-whitespace template
both pass an explicit payload through unchanged with no spawn. -/
theorem C2_passthrough_witness :
    run_command "" "p" none [104, 105]
        ⟨none, ⟨true, none, true, Except.ok [], "", 0, []⟩,
          ⟨true, true, Except.ok [], false, none, "", Except.ok true⟩⟩ =
      ⟨Except.ok [104, 105], false, none⟩ ∧
    run_command " \t " "p" (some "/w") [104, 105]
        ⟨none, ⟨true, none, true, Except.ok [], "", 0, []⟩,
          ⟨true, true, Except.ok [], false, none, "", Except.ok true⟩⟩ =
      ⟨Except.ok [104, 105], false, none⟩ :=
  ⟨C2_passthrough "" "p" none [104, 105] _ (Or.inl rfl),
    C2_passthrough " \t " "p" (some "/w") [104, 105] _ (Or.inr (by decide))⟩

/-- Strategy selection of `run_command` under a successful spawn. -/
theorem run_command_strategy (cmd path : String) (workdir : Option String)
    (input : List Nat) (beh : RunBehavior) (hc : cmd ≠ "")
    (hp : (parse_command cmd path).1 ≠ "") (hs : beh.spawnErr = none) :
    (run_command cmd path workdir input beh).strategy =
      some (if input.length > STREAM_THRESHOLD then Strategy.streaming
        else Strategy.buffered) := by
  by_cases hlen : input.length > STREAM_THRESHOLD <;>
    simp [run_command, hc, hp, hs, hlen]

/-- C4: with a non-empty template, a non-empty parsed program and a
successful spawn, the buffered strategy runs exactly when the payload
length is at or below the 64 KiB threshold and the streaming strategy
exactly when it is strictly above; the choice depends on nothing but the
payload length. -/
theorem C4_strategy_selection (cmd path : String) (workdir : Option String)
    (input : List Nat) (beh : RunBehavior)
    (hc : cmd ≠ "") (hp : (parse_command cmd path).1 ≠ "")
    (hs : beh.spawnErr = none) :
    (input.length ≤ STREAM_THRESHOLD →
      (run_command cmd path workdir input beh).strategy =
        some Strategy.buffered) ∧
    (STREAM_THRESHOLD < input.length →
      (run_command cmd path workdir input beh).strategy =
        some Strategy.streaming) ∧
    (∀ (cmd2 path2 : String) (workdir2 : Option String) (input2 : List Nat)
      (beh2 : RunBehavior), cmd2 ≠ "" → (parse_command cmd2 path2).1 ≠ "" →
      beh2.spawnErr = none → input2.length = input.length →
      (run_command cmd2 path2 workdir2 input2 beh2).strategy =
        (run_command cmd path workdir input beh).strategy) := by
  refine ⟨?_, ?_, ?_⟩
  · intro hlen
    rw [run_command_strategy cmd path workdir input beh hc hp hs,
      if_neg (by omega)]
  · intro hlen
    rw [run_command_strategy cmd path workdir input beh hc hp hs,
      if_pos (by omega)]
  · intro cmd2 path2 workdir2 input2 beh2 hc2 hp2 hs2 hlen
    rw [run_command_strategy cmd path workdir input beh hc hp hs,
      run_command_strategy cmd2 path2 workdir2 input2 beh2 hc2 hp2 hs2, hlen]

/-- Witness for C4: a one-byte payload selects the buffered strategy and
a payload of 64 KiB + 1 zero bytes selects the streaming strategy, for
the template `cat`. -/
theorem C4_strategy_selection_witness :
    (run_command "cat" "p" none [0]
        ⟨none, ⟨true, none, true, Except.ok [], "", 0, []⟩,
          ⟨true, true, Except.ok [], false, none, "", Except.ok true⟩⟩).strategy =
      some Strategy.buffered ∧
    (run_command "cat" "p" none (List.replicate 65537 0)
        ⟨none, ⟨true, none, true, Except.ok [], "", 0, []⟩,
          ⟨true, true, Except.ok [], false, none, "", Except.ok true⟩⟩).strategy =
      some Strategy.streaming :=
  ⟨(C4_strategy_selection "cat" "p" none [0] _ (by decide) (by decide) rfl).1
      (by decide),
    (C4_strategy_selection "cat" "p" none (List.replicate 65537 0) _ (by decide)
        (by decide) rfl).2.1 (by rw [List.length_replicate]; decide)⟩

/-! Helper lemmas about the buffered wait loop. -/

/-- A prefix of poll iterations in which the child is still running and
the elapsed reading never exceeds the timeout. -/
def pendingBefore (pre : List (TryWaitRes × Nat)) : Prop :=
  ∀ q ∈ pre, q.1 = TryWaitRes.notYet ∧ q.2 ≤ DEFAULT_TIMEOUT

instance (pre : List (TryWaitRes × Nat)) : Decidable (pendingBefore pre) := by
  unfold pendingBefore
  infer_instance

/-- The wait loop skips over a pending prefix without returning. -/
theorem bufferedLoop_append_pending (program : String) (d : List Nat)
    (st : String) (pre rest : List (TryWaitRes × Nat))
    (h : pendingBefore pre) :
    bufferedLoop program d st (pre ++ rest) = bufferedLoop program d st rest := by
  induction pre with
  | nil => rfl
  | cons q pre ih =>
    obtain ⟨h1, h2⟩ := h q (List.mem_cons_self _ _)
    rcases q with ⟨r, e⟩
    simp only at h1
    subst h1
    rw [List.cons_append]
    show bufferedLoop program d st ((TryWaitRes.notYet, e) :: (pre ++ rest)) = _
    rw [bufferedLoop, if_neg (by omega : ¬ e > DEFAULT_TIMEOUT)]
    exact ih (fun q hq => h q (List.mem_cons_of_mem _ hq))

/-- Evaluating `run_buffered` once the write and read phases succeeded. -/
theorem run_buffered_loop (program : String) (input : List Nat)
    (b : BufferedBehavior) (d : List Nat)
    (hstdin : (if b.stdinPipe then b.writeErr else none) = none)
    (hstdout : (if b.stdoutPipe then b.readStdout else Except.ok []) =
      Except.ok d) :
    run_buffered program input b =
      bufferedLoop program d b.stderrData b.poll := by
  unfold run_buffered
  rw [hstdin, hstdout]

/-- An environment behavior for the buffered strategy in which the write
and read phases take 350 seconds of wall-clock time (the ghost
`preLoopMs` field), the first poll still sees the child running 50 ms
after the loop's `Instant::now()` baseline — hence 350.05 s after spawn,
beyond the 5-minute bound — and the child then exits successfully. -/
def slowReadBehavior : BufferedBehavior :=
  ⟨true, none, true, Except.ok [7], "", 350000,
    [(TryWaitRes.notYet, 50), (TryWaitRes.exited true, 80)]⟩

/-- C3 counterexample: the source starts the timeout clock at the
`Instant::now()` of lib.rs line 156, after writing stdin and reading
stdout to completion, not at spawn.  In the concrete behavior
`slowReadBehavior` the wall-clock time since spawn exceeds the 5-minute
default timeout while the child is still running (the first poll returns
`notYet` at 350 050 ms after spawn), yet the executor neither kills the
child nor returns a timeout error: it returns the child's output
successfully. -/
theorem C3_counterexample :
    slowReadBehavior.poll =
      [(TryWaitRes.notYet, 50), (TryWaitRes.exited true, 80)] ∧
    slowReadBehavior.preLoopMs + 50 > DEFAULT_TIMEOUT ∧
    run_buffered "slow" [1] slowReadBehavior = ⟨Except.ok [7], false, true⟩ := by
  refine ⟨rfl, by decide, ?_⟩
  rfl

/-- C3 amended: in the buffered strategy the timeout clock starts when
the executor begins polling for exit (after the payload write and the
stdout/stderr reads complete).  If a poll sees the child still running
with that clock strictly beyond the 5-minute default timeout and every
earlier poll saw the child running within the bound, the child is
forcibly killed and a timeout error is returned; if the child is seen
exited after a within-bound pending prefix, it is never killed. -/
theorem C3_amended (program : String) (input : List Nat)
    (b : BufferedBehavior) (d : List Nat)
    (hstdin : (if b.stdinPipe then b.writeErr else none) = none)
    (hstdout : (if b.stdoutPipe then b.readStdout else Except.ok []) =
      Except.ok d) :
    (∀ pre e rest, b.poll = pre ++ (TryWaitRes.notYet, e) :: rest →
      pendingBefore pre → e > DEFAULT_TIMEOUT →
      run_buffered program input b =
        ⟨Except.error (timeoutMsg program), true, true⟩) ∧
    (∀ pre s e rest, b.poll = pre ++ (TryWaitRes.exited s, e) :: rest →
      pendingBefore pre →
      (run_buffered program input b).killed = false ∧
      (run_buffered program input b).settled = true) := by
  constructor
  · intro pre e rest hpoll hpre he
    rw [run_buffered_loop program input b d hstdin hstdout, hpoll,
      bufferedLoop_append_pending program d b.stderrData pre _ hpre,
      bufferedLoop, if_pos he]
  · intro pre s e rest hpoll hpre
    rw [run_buffered_loop program input b d hstdin hstdout, hpoll,
      bufferedLoop_append_pending program d b.stderrData pre _ hpre]
    cases s <;> exact ⟨rfl, rfl⟩

/-- Behavior in which the second poll reading strictly exceeds the
timeout while the child is still running. -/
def timeoutWitnessBehavior : BufferedBehavior :=
  ⟨true, none, true, Except.ok [2], "", 0,
    [(TryWaitRes.notYet, 100), (TryWaitRes.notYet, 300001)]⟩

/-- Behavior in which the child is seen exited (with failure) at the
second poll, within the bound. -/
def exitWitnessBehavior : BufferedBehavior :=
  ⟨true, none, true, Except.ok [2], "", 0,
    [(TryWaitRes.notYet, 100), (TryWaitRes.exited false, 200)]⟩

/-- Witness for C3: after one within-bound pending poll, a poll reading
of 300 001 ms (strictly beyond the bound) kills the child and returns the
timeout error; and a child seen exited at the second poll is not
killed. -/
theorem C3_amended_witness :
    run_buffered "p" [1] timeoutWitnessBehavior =
      ⟨Except.error (timeoutMsg "p"), true, true⟩ ∧
    (run_buffered "q" [1] exitWitnessBehavior).killed = false :=
  ⟨(C3_amended "p" [1] timeoutWitnessBehavior [2] rfl rfl).1
      [(TryWaitRes.notYet, 100)] 300001 [] rfl (by decide) (by decide),
    ((C3_amended "q" [1] exitWitnessBehavior [2] rfl rfl).2
      [(TryWaitRes.notYet, 100)] false 200 [] rfl (by decide)).1⟩

/-! Claim theorems about child-process lifecycle on the error paths. -/

/-- Buffered behavior in which `write_all` on the child's stdin fails
while the child is still running. -/
def bufWriteFailBehavior : BufferedBehavior :=
  ⟨true, some "broken pipe", true, Except.ok [], "", 0, [(TryWaitRes.notYet, 0)]⟩

/-- Buffered behavior in which `read_to_end` on the child's stdout fails
while the child is still running. -/
def bufReadFailBehavior : BufferedBehavior :=
  ⟨true, none, true, Except.error "bad read", "", 0, [(TryWaitRes.notYet, 0)]⟩

/-- Streaming behavior in which `read_to_end` on the child's stdout
fails. -/
def streamReadFailBehavior : StreamingBehavior :=
  ⟨true, true, Except.error "bad read", false, none, "", Except.ok true⟩

/-- Streaming behavior in which the writer thread's `write_all` fails
while the read side completed. -/
def streamWriteFailBehavior : StreamingBehavior :=
  ⟨true, true, Except.ok [3], false, some "broken pipe", "", Except.ok true⟩

/-- C1, evaluated at the failing inputs: on the stdin-write failure path
and the stdout-read failure path of the buffered strategy, and on the
stdout-read failure and writer-failure paths of the streaming strategy,
the executor returns an error without having observed the child's exit
and without killing it (`settled = false`; in the streaming cases
`waitChild` is absent from the performed events), contradicting the
claimed invariant that the executor never returns before the child has
exited or been forcibly terminated. -/
theorem C1_error_paths_return_unsettled :
    ((run_buffered "p" [1] bufWriteFailBehavior).settled = false ∧
      (run_buffered "p" [1] bufWriteFailBehavior).outcome =
        Except.error "failed to write to stdin: broken pipe" ∧
      (run_buffered "p" [1] bufWriteFailBehavior).killed = false) ∧
    ((run_buffered "p" [1] bufReadFailBehavior).settled = false ∧
      (run_buffered "p" [1] bufReadFailBehavior).outcome =
        Except.error "failed to read stdout: bad read") ∧
    ((run_streaming "p" [1] streamReadFailBehavior).settled = false ∧
      SEvent.waitChild ∉ (run_streaming "p" [1] streamReadFailBehavior).events) ∧
    ((run_streaming "p" [1] streamWriteFailBehavior).settled = false ∧
      SEvent.waitChild ∉ (run_streaming "p" [1] streamWriteFailBehavior).events) := by
  refine ⟨⟨rfl, rfl, rfl⟩, ⟨rfl, rfl⟩, ⟨rfl, by decide⟩, ⟨rfl, by decide⟩⟩

/-- C8: a child that exits with a failure status makes both strategies
return a fatal error whose message is the program name followed by
`failed:` and the trimmed contents of the child's standard error — in
particular no output bytes are returned; with no stderr output the
diagnostic is empty, and a child writing `boom` (with surrounding
whitespace) produces a message carrying `boom`. -/
theorem C8_nonzero_exit_reports_stderr :
    (∀ (program : String) (input : List Nat) (b : BufferedBehavior)
      (d : List Nat) (pre : List (TryWaitRes × Nat)) (e : Nat)
      (rest : List (TryWaitRes × Nat)),
      (if b.stdinPipe then b.writeErr else none) = none →
      (if b.stdoutPipe then b.readStdout else Except.ok []) = Except.ok d →
      b.poll = pre ++ (TryWaitRes.exited false, e) :: rest →
      pendingBefore pre →
      run_buffered program input b =
        ⟨Except.error (failMsg program b.stderrData), false, true⟩) ∧
    (∀ (program : String) (input : List Nat) (s : StreamingBehavior)
      (out : List Nat),
      s.stdinPipe = true → s.stdoutPipe = true →
      s.readStdout = Except.ok out → s.writerPanic = false →
      s.writeErr = none → s.waitResult = Except.ok false →
      (run_streaming program input s).outcome =
        Except.error (failMsg program s.stderrData)) ∧
    failMsg "sh" " boom\n" = sqStr ++ "sh" ++ sqStr ++ " failed: boom" ∧
    failMsg "sh" "" = sqStr ++ "sh" ++ sqStr ++ " failed: " := by
  refine ⟨?_, ?_, by decide, by decide⟩
  · intro program input b d pre e rest hstdin hstdout hpoll hpre
    rw [run_buffered_loop program input b d hstdin hstdout, hpoll,
      bufferedLoop_append_pending program d b.stderrData pre _ hpre]
    rfl
  · intro program input s out h1 h2 h3 h4 h5 h6
    simp [run_streaming, h1, h2, h3, h4, h5, h6]

/-- Streaming behavior of a child that exits with a failure status after
writing ` boom` and a newline to stderr. -/
def boomBehavior : StreamingBehavior :=
  ⟨true, true, Except.ok [9], false, none, " boom\n", Except.ok false⟩

/-- Witness for C8: a buffered child failing at the first poll with empty
stderr, and a streaming child failing after writing `boom`. -/
theorem C8_nonzero_exit_reports_stderr_witness :
    run_buffered "sh" [1] exitWitnessBehavior =
      ⟨Except.error (failMsg "sh" ""), false, true⟩ ∧
    (run_streaming "sh" [1] boomBehavior).outcome =
      Except.error (failMsg "sh" " boom\n") :=
  ⟨C8_nonzero_exit_reports_stderr.1 "sh" [1] exitWitnessBehavior [2]
      [(TryWaitRes.notYet, 100)] 200 [] rfl rfl rfl (by decide),
    C8_nonzero_exit_reports_stderr.2.1 "sh" [1] boomBehavior [9]
      rfl rfl rfl rfl rfl rfl⟩

/-- C9: whenever a streaming execution reaches the process wait, the
writer thread has already been joined and checked (the performed events
are exactly read, join, stderr drain, wait, in that order); and a failure
writing the payload to the child's stdin is surfaced as a fatal error
even when the read of the child's stdout completed successfully — the
call returns before ever waiting on the process. -/
theorem C9_writer_joined_before_wait :
    (∀ (program : String) (input : List Nat) (s : StreamingBehavior),
      SEvent.waitChild ∈ (run_streaming program input s).events →
      (run_streaming program input s).events =
        [SEvent.readStdout, SEvent.joinWriter, SEvent.readStderr,
          SEvent.waitChild]) ∧
    (∀ (program : String) (input : List Nat) (s : StreamingBehavior)
      (out : List Nat) (e : String),
      s.stdinPipe = true → s.stdoutPipe = true →
      s.readStdout = Except.ok out → s.writerPanic = false →
      s.writeErr = some e →
      (run_streaming program input s).outcome =
        Except.error ("failed to write to stdin: " ++ e) ∧
      SEvent.waitChild ∉ (run_streaming program input s).events) := by
  constructor
  · intro program input s h
    obtain ⟨sp, op, rs, wp, we, sd, wr⟩ := s
    cases sp
    · simp [run_streaming] at h
    · cases op
      · simp [run_streaming] at h
      · cases rs with
        | error e => simp [run_streaming] at h
        | ok out =>
          cases wp
          · cases we with
            | some e => simp [run_streaming] at h
            | none =>
              cases wr with
              | error e => simp [run_streaming]
              | ok b => cases b <;> simp [run_streaming]
          · simp [run_streaming] at h
  · intro program input s out e h1 h2 h3 h4 h5
    constructor
    · simp [run_streaming, h1, h2, h3, h4, h5]
    · simp [run_streaming, h1, h2, h3, h4, h5]

/-- Witness for C9: a successful streaming run reaches the wait with the
writer already joined, and a run whose writer failed surfaces the write
error despite a completed read. -/
theorem C9_writer_joined_before_wait_witness :
    (run_streaming "p" [1] boomBehavior).events =
      [SEvent.readStdout, SEvent.joinWriter, SEvent.readStderr,
        SEvent.waitChild] ∧
    (run_streaming "p" [1] streamWriteFailBehavior).outcome =
      Except.error ("failed to write to stdin: " ++ "broken pipe") :=
  ⟨C9_writer_joined_before_wait.1 "p" [1] boomBehavior (by decide),
    (C9_writer_joined_before_wait.2 "p" [1] streamWriteFailBehavior [3]
      "broken pipe" rfl rfl rfl rfl rfl).1⟩
